import Mathlib

/-!
Verification of the `Switch` class in `src/prime.js` (prime-indicator).

The class shells out to external helper binaries (pkexec/gksudo,
prime-select, nvidia-smi, nvidia-settings).  We embed the class shallowly:
the operating system is an oracle (`Shell`) mapping a command line to the
outcome of spawning it, and each method of the class becomes a Lean
function over that oracle and an explicit instance state.  Side effects
that the claims talk about (which command lines were handed to a process
runner, which callback invocations happened, which signals were emitted)
are returned explicitly as data.
-/

set_option autoImplicit false

namespace PrimeIndicator

/-- Outcome of attempting to spawn one command line: either the process
runs and finishes with an exit status and captured output streams, or the
spawn itself fails (`Gio.Subprocess` construction / `init` throws) with an
error text (`e.toString()` in the catch block). -/
inductive SpawnOutcome where
  | ok (status : Int) (stdout : String) (stderr : String)
  | err (message : String)
deriving DecidableEq, Repr

/-- The operating-system oracle: what happens when a given command line is
spawned.  All methods of the class are parameterized by it. -/
def Shell : Type := String → SpawnOutcome

/-- The result object built by `_shell_exec` (src/prime.js:79-104):
`{status, stdin, stdout, stderr}` with defaults `-1`, the command, and two
empty strings. -/
structure ExecResult where
  status : Int
  stdin : String
  stdout : String
  stderr : String
deriving DecidableEq, Repr

/-- JavaScript `a || b` on strings: the empty string is falsy. -/
def jsOr (a b : String) : String :=
  if a ≠ "" then a else b

/-- JavaScript truthiness of a nullable string (`null` and `""` are
falsy). -/
def strTruthy : Option String → Bool
  | none => false
  | some s => s ≠ ""

/-- Characters removed by the JavaScript `String.prototype.trim` used in
the source (ECMAScript WhiteSpace and LineTerminator; the ASCII ones
suffice for the outputs involved here). -/
def jsWhitespace (c : Char) : Bool :=
  c = ' ' || c = '\t' || c = '\n' || c = '\r' || c = '\x0b' || c = '\x0c'

/-- JavaScript `s.trim()`: strip leading and trailing whitespace. -/
def jsTrim (s : String) : String :=
  String.mk (((s.data.dropWhile jsWhitespace).reverse.dropWhile jsWhitespace).reverse)

/-- `Switch._shell_exec` (src/prime.js:79-104).  Starts from the default
result `{status: -1, stdin: command, stdout: "", stderr: ""}`; on a
successful spawn overwrites status/stdout/stderr with the subprocess
results; on a thrown spawn error only `stderr` is overwritten with the
error text.  Never raises (the try/catch swallows everything). -/
def shell_exec (sh : Shell) (command : String) : ExecResult :=
  match sh command with
  | .ok status stdout stderr =>
      { status := status, stdin := command, stdout := stdout, stderr := stderr }
  | .err e =>
      { status := -1, stdin := command, stdout := "", stderr := e }

/-- `Switch._which` (src/prime.js:68-71): runs `which <command>` through
`_shell_exec` and returns `exec.stdout.trim() || exec.stderr.trim()` - a
string, the empty string when both streams are blank. -/
def which (sh : Shell) (command : String) : String :=
  let exec := shell_exec sh ("which " ++ command)
  jsOr (jsTrim exec.stdout) (jsTrim exec.stderr)

/-- The `_commands` table built by the constructor (src/prime.js:32-37).
Each field holds the string `_which` produced; absence is represented by
the empty string (`_which` never yields `null`).  The field `sudoCmd`
models the property named `sudo` in the source (that spelling is a
reserved command keyword under Mathlib). -/
structure Commands where
  sudoCmd : String
  select : String
  management : String
  settings : String
deriving DecidableEq, Repr

/-- Constructor body for `_commands` (src/prime.js:32-37): the sudo entry
is `this._which(pkexec) || this._which(gksudo)`, the others are single
lookups. -/
def mkCommands (sh : Shell) : Commands :=
  { sudoCmd := jsOr (which sh "pkexec") (which sh "gksudo")
    select := which sh "prime-select"
    management := which sh "nvidia-smi"
    settings := which sh "nvidia-settings" }

/-- A JavaScript value as observable from `Switch.command`: `null`, a
string from the `_commands` table, or a non-null value inherited from
`Object.prototype` through the prototype chain. -/
inductive JSVal where
  | null : JSVal
  | str (s : String) : JSVal
  | inherited (name : String) : JSVal
deriving DecidableEq, Repr

/-- JavaScript truthiness of a `JSVal`: `null` and `""` are falsy;
inherited members of `Object.prototype` (functions, and the object
`Object.prototype` itself for `__proto__`) are truthy. -/
def JSVal.truthy : JSVal → Bool
  | .null => false
  | .str s => s ≠ ""
  | .inherited _ => true

/-- String coercion of a `JSVal`, as JavaScript string concatenation would
apply it.  Only the `str` case is ever concatenated by the class (the four
known roles all map to table strings). -/
def JSVal.toStr : JSVal → String
  | .null => "null"
  | .str s => s
  | .inherited name => name

/-- Property names every plain object literal inherits from
`Object.prototype` (ECMAScript): the JavaScript `in` operator consults the
prototype chain, so `name in this._commands` is `true` for these even
though they are not own properties of the table. -/
def objectPrototypeProps : List String :=
  ["constructor", "hasOwnProperty", "isPrototypeOf", "propertyIsEnumerable",
   "toLocaleString", "toString", "valueOf", "__defineGetter__",
   "__defineSetter__", "__lookupGetter__", "__lookupSetter__", "__proto__"]

/-- `Switch.command` (src/prime.js:198-203): `if (cmd in this._commands)
return this._commands[cmd]; return null;`.  The `in` operator walks the
prototype chain, so for the four own keys the table string is returned,
for names inherited from `Object.prototype` (such as `toString`) the
inherited non-null member is returned, and only otherwise `null`. -/
def command (c : Commands) (cmd : String) : JSVal :=
  if cmd = "sudo" then .str c.sudoCmd
  else if cmd = "select" then .str c.select
  else if cmd = "management" then .str c.management
  else if cmd = "settings" then .str c.settings
  else if cmd ∈ objectPrototypeProps then .inherited cmd
  else .null

/-- Instance state of a `Switch` object, together with the bookkeeping of
the file-monitor world needed to observe subscriptions.  `commands`,
`gpuCache` and `listener` model the fields `_commands`, `_gpu` and
`_listener` (all set in the constructor, src/prime.js:27-38; `_gpu` and
`_listener` start as `null`).  `nextId` and `active` model the set of live
`Gio.FileMonitor` subscriptions: `monitor_file` hands out a fresh monitor
and registers it, `cancel` deregisters it. -/
structure SwitchState where
  commands : Commands
  gpuCache : Option String := none
  listener : Option Nat := none
  nextId : Nat := 0
  active : List Nat := []
deriving DecidableEq, Repr

/-- The constructor (src/prime.js:27-38): `_gpu = null`, `_listener =
null`, `_commands` resolved once via `_which`. -/
def mkSwitch (sh : Shell) : SwitchState :=
  { commands := mkCommands sh }

/-- Result of reading the `gpu` getter: the returned string, the updated
instance state, and the command lines handed to the synchronous runner
while computing it (empty when the memoized value was returned or the
helper was absent). -/
structure GpuRead where
  value : String
  st : SwitchState
  ran : List String
deriving DecidableEq, Repr

/-- The `gpu` getter (src/prime.js:161-174).  `if (this._gpu) return
this._gpu;` returns the cache when truthy; otherwise the result of
`this.command(management)` is tested for truthiness, `<management> -L` is
run synchronously and `_gpu` is set to `intel` on non-zero exit status and
`nvidia` on zero, or `_gpu` is set to `unknown` when the helper entry is
falsy.  The trailing `return this.gpu` re-enters the getter; the freshly
assigned cache is one of the three non-empty strings, so the re-entry
immediately returns it. -/
def gpuGet (sh : Shell) (st : SwitchState) : GpuRead :=
  if strTruthy st.gpuCache then
    { value := st.gpuCache.getD "", st := st, ran := [] }
  else
    let cmd := command st.commands "management"
    if cmd.truthy then
      let line := cmd.toStr ++ " -L"
      let exec := shell_exec sh line
      let g := if exec.status ≠ 0 then "intel" else "nvidia"
      { value := g, st := { st with gpuCache := some g }, ran := [line] }
    else
      { value := "unknown", st := { st with gpuCache := some "unknown" }, ran := [] }

/-- The `query` getter (src/prime.js:182-190): if `this.command(select)`
is truthy, run `<select> query` synchronously and return
`exec.stdout.trim() || exec.stderr.trim() || unknown`; otherwise return
`unknown`.  Nothing is memoized: the getter touches no instance field. -/
def queryGet (sh : Shell) (st : SwitchState) : String :=
  let cmd := command st.commands "select"
  if cmd.truthy then
    let exec := shell_exec sh (cmd.toStr ++ " query")
    jsOr (jsTrim exec.stdout) (jsOr (jsTrim exec.stderr) "unknown")
  else
    "unknown"

/-- Whether a callback invocation by the asynchronous runner happens
immediately (inside the call, from the catch block) or later (when the
spawned subprocess completes and the event loop delivers the
continuation). -/
inductive CallbackTiming where
  | immediate
  | deferred
deriving DecidableEq, Repr

/-- Observable effects of one `_shell_exec_async` call: the command lines
actually handed to `Gio.Subprocess` for spawning, and the sequence of
callback invocations with their timing and argument. -/
structure AsyncExec where
  spawned : List String
  calls : List (CallbackTiming × ExecResult)
deriving DecidableEq, Repr

/-- `Switch._shell_exec_async` (src/prime.js:113-143).  On a successful
spawn the completion continuation later calls the callback (when one was
supplied) with the exit status and both streams; when spawning throws, the
catch block calls the callback (when one was supplied) immediately with
status `-1`, empty stdout and the error text.  Either way the callback is
invoked exactly once, and never when `hasCb` is false (the `typeof
callback === function` guard). -/
def shell_exec_async (sh : Shell) (cmd : String) (hasCb : Bool) : AsyncExec :=
  match sh cmd with
  | .ok status stdout stderr =>
      { spawned := [cmd]
        calls :=
          if hasCb then
            [(.deferred, { status := status, stdin := cmd, stdout := stdout, stderr := stderr })]
          else [] }
  | .err e =>
      { spawned := []
        calls :=
          if hasCb then
            [(.immediate, { status := -1, stdin := cmd, stdout := "", stderr := e })]
          else [] }

/-- Argument object passed to the caller-supplied callback of
`Switch.switch`: `{gpu: gpu, result: !e.status}`. -/
structure SwitchCbArg where
  gpu : String
  result : Bool
deriving DecidableEq, Repr

/-- Observable effects of one `Switch.switch` call: the command lines run
through the synchronous runner (the `query` precondition runs
`<select> query`), the command lines handed to the asynchronous runner
(the switch command itself), and the invocations of the caller-supplied
callback. -/
structure SwitchEffects where
  ranSync : List String
  spawned : List String
  calls : List SwitchCbArg
deriving DecidableEq, Repr

/-- `Switch.switch` (src/prime.js:214-243).  Three preconditions in
order, each returning silently when unmet: `this.command(sudo)` truthy,
`this.command(select)` truthy, `this.query !== gpu` (the `query` getter
itself synchronously runs `<select> query`).  Then the command
`<sudo> <select> <gpu>` goes to the asynchronous runner with an inner
handler (always a function, hence always invoked) that calls the outer
callback, when supplied, with `{gpu, result: !e.status}`. -/
def switchOp (sh : Shell) (st : SwitchState) (gpu : String) (hasCb : Bool) : SwitchEffects :=
  let su := command st.commands "sudo"
  if !su.truthy then
    { ranSync := [], spawned := [], calls := [] }
  else
    let sel := command st.commands "select"
    if !sel.truthy then
      { ranSync := [], spawned := [], calls := [] }
    else if queryGet sh st = gpu then
      { ranSync := [sel.toStr ++ " query"], spawned := [], calls := [] }
    else
      let cmd := su.toStr ++ " " ++ sel.toStr ++ " " ++ gpu
      let a := shell_exec_async sh cmd true
      { ranSync := [sel.toStr ++ " query"]
        spawned := a.spawned
        calls :=
          if hasCb then
            a.calls.map (fun p => { gpu := gpu, result := p.2.status == (0 : Int) })
          else [] }

/-- `Switch.settings` (src/prime.js:250-256): if `this.command(settings)`
is truthy, hand it to the asynchronous runner with no callback; otherwise
do nothing. -/
def settingsOp (sh : Shell) (st : SwitchState) : AsyncExec :=
  let cmd := command st.commands "settings"
  if cmd.truthy then
    shell_exec_async sh cmd.toStr false
  else
    { spawned := [], calls := [] }

/-- `Switch.monitor` (src/prime.js:263-269): `if (this._listener) return;`
(a `Gio.FileMonitor` object is always truthy), otherwise create a fresh
file monitor on the fixed path, store it in `_listener` and register it as
an active subscription. -/
def monitorOp (st : SwitchState) : SwitchState :=
  if st.listener.isSome then st
  else
    { st with
        listener := some st.nextId
        active := st.active ++ [st.nextId]
        nextId := st.nextId + 1 }

/-- `Switch.unmonitor` (src/prime.js:276-282): `if (!this._listener)
return;`, otherwise cancel the stored monitor (removing it from the active
subscriptions) and null the field. -/
def unmonitorOp (st : SwitchState) : SwitchState :=
  match st.listener with
  | none => st
  | some id => { st with active := st.active.erase id, listener := none }

/-- Observable effects of one change-event delivery to
`Switch._handle_listener`. -/
structure HandlerEffects where
  emitted : List (String × String)
  st : SwitchState
  ran : List String
deriving DecidableEq, Repr

/-- `Switch._handle_listener` (src/prime.js:292-294): `this.emit(
gpu-change, this.gpu)` - it reads the `gpu` getter (memoized) and emits
the value to the registered listeners. -/
def handle_listener (sh : Shell) (st : SwitchState) : HandlerEffects :=
  let r := gpuGet sh st
  { emitted := [("gpu-change", r.value)], st := r.st, ran := r.ran }

/-! ### Concrete shells used as witnesses -/

/-- A shell where every spawn exits 1 with blank output: in particular
every `which` lookup fails silently, so no helper resolves. -/
def shNone : Shell := fun _ => .ok 1 "" ""

/-- A shell where every spawn attempt throws. -/
def shErr : Shell := fun _ => .err "boom"

/-- A shell with all four helpers present at the short paths P, S, M, T;
the discrete GPU is active (`M -L` exits 0), the selection is `nvidia`
(`S query` prints `nvidia`), switching to intel succeeds and switching to
amd fails with exit status 3. -/
def shFull : Shell := fun c =>
  if c = "which pkexec" then .ok 0 "P\n" ""
  else if c = "which gksudo" then .ok 1 "" ""
  else if c = "which prime-select" then .ok 0 "S\n" ""
  else if c = "which nvidia-smi" then .ok 0 "M\n" ""
  else if c = "which nvidia-settings" then .ok 0 "T\n" ""
  else if c = "M -L" then .ok 0 "GPU 0: NVIDIA\n" ""
  else if c = "S query" then .ok 0 "nvidia\n" ""
  else if c = "P S intel" then .ok 0 "" ""
  else if c = "P S amd" then .ok 3 "" "switch failed\n"
  else .err "unexpected command"

/-- Same helpers as `shFull`, but the integrated GPU is active:
`M -L` exits 1. -/
def shIntel : Shell := fun c =>
  if c = "M -L" then .ok 1 "" "no devices\n" else shFull c

/-! ### Helper lemmas -/

/-- `this.command(management)` always yields the management table entry. -/
theorem command_management (c : Commands) : command c "management" = .str c.management := rfl

/-- `this.command(select)` always yields the select table entry. -/
theorem command_select (c : Commands) : command c "select" = .str c.select := rfl

/-- `this.command(sudo)` always yields the sudo table entry. -/
theorem command_sudo (c : Commands) : command c "sudo" = .str c.sudoCmd := rfl

/-- `this.command(settings)` always yields the settings table entry. -/
theorem command_settings (c : Commands) : command c "settings" = .str c.settings := rfl

/-- Reading the `gpu` getter with a truthy cache returns the cache and
changes nothing. -/
theorem gpuGet_cached (sh : Shell) (st : SwitchState) (v : String)
    (hv : st.gpuCache = some v) (hne : v ≠ "") :
    gpuGet sh st = { value := v, st := st, ran := [] } := by
  simp [gpuGet, strTruthy, hv, hne]

/-- Evaluation of the `gpu` getter on an instance whose cache is still
`null` and whose management helper did not resolve. -/
theorem gpuGet_fresh_absent (sh : Shell) (st : SwitchState)
    (h : st.gpuCache = none) (hm : st.commands.management = "") :
    gpuGet sh st =
      { value := "unknown", st := { st with gpuCache := some "unknown" }, ran := [] } := by
  simp [gpuGet, strTruthy, h, command_management, JSVal.truthy, JSVal.toStr, hm]

/-- Evaluation of the `gpu` getter on an instance whose cache is still
`null` and whose management helper resolved. -/
theorem gpuGet_fresh_present (sh : Shell) (st : SwitchState)
    (h : st.gpuCache = none) (hm : st.commands.management ≠ "") :
    gpuGet sh st =
      { value := (if (shell_exec sh (st.commands.management ++ " -L")).status ≠ 0 then "intel" else "nvidia"),
        st := { st with gpuCache := some (if (shell_exec sh (st.commands.management ++ " -L")).status ≠ 0 then "intel" else "nvidia") },
        ran := [st.commands.management ++ " -L"] } := by
  simp [gpuGet, strTruthy, h, command_management, JSVal.truthy, JSVal.toStr, hm]

/-! ### C1 -/

/-- C1: reading the `gpu` getter before the cache is populated returns
`unknown` when the management helper did not resolve at construction;
otherwise it runs `<management> -L` through the synchronous runner and
returns `intel` exactly when the exit status is non-zero and `nvidia`
exactly when it is zero. -/
theorem C1_gpu_getter (sh : Shell) (st : SwitchState) (h : st.gpuCache = none) :
    (st.commands.management = "" → (gpuGet sh st).value = "unknown") ∧
    (st.commands.management ≠ "" →
      (gpuGet sh st).ran = [st.commands.management ++ " -L"] ∧
      (gpuGet sh st).value =
        (if (shell_exec sh (st.commands.management ++ " -L")).status ≠ 0
         then "intel" else "nvidia")) := by
  constructor
  · intro hm
    rw [gpuGet_fresh_absent sh st h hm]
  · intro hm
    rw [gpuGet_fresh_present sh st h hm]
    exact ⟨rfl, rfl⟩

/-- C1 witness: under `shFull` the helper resolves to `M`, `M -L` exits 0
and the getter returns `nvidia`. -/
theorem C1_gpu_getter_witness : (gpuGet shFull (mkSwitch shFull)).value = "nvidia" := by
  have h := (C1_gpu_getter shFull (mkSwitch shFull) rfl).2 (by decide)
  rw [h.2]
  rfl

/-! ### C2 -/

/-- C2: once the `gpu` getter has computed a value, that value is one of
`intel`, `nvidia`, `unknown`, it is stored in the cache, every later read
returns it unchanged without consulting the shell (even under a shell that
behaves differently), and the monitor, unmonitor and change-event
operations keep the cache intact.  (`query`, `switch` and `settings` do
not touch the instance state at all: their embeddings return effects
only.) -/
theorem C2_gpu_memoized (sh : Shell) (st : SwitchState) (h : st.gpuCache = none) :
    ((gpuGet sh st).value = "intel" ∨ (gpuGet sh st).value = "nvidia" ∨
      (gpuGet sh st).value = "unknown") ∧
    (gpuGet sh st).st.gpuCache = some (gpuGet sh st).value ∧
    (∀ sh2 : Shell, gpuGet sh2 (gpuGet sh st).st =
      { value := (gpuGet sh st).value, st := (gpuGet sh st).st, ran := [] }) ∧
    (monitorOp (gpuGet sh st).st).gpuCache = some (gpuGet sh st).value ∧
    (unmonitorOp (gpuGet sh st).st).gpuCache = some (gpuGet sh st).value ∧
    (∀ sh2 : Shell, (handle_listener sh2 (gpuGet sh st).st).st = (gpuGet sh st).st) := by
  have hval : (gpuGet sh st).value = "intel" ∨ (gpuGet sh st).value = "nvidia" ∨
      (gpuGet sh st).value = "unknown" := by
    by_cases hm : st.commands.management = ""
    · rw [gpuGet_fresh_absent sh st h hm]
      simp
    · rw [gpuGet_fresh_present sh st h hm]
      by_cases hs : (shell_exec sh (st.commands.management ++ " -L")).status ≠ 0 <;>
        simp [hs]
  have hcache : (gpuGet sh st).st.gpuCache = some (gpuGet sh st).value := by
    by_cases hm : st.commands.management = ""
    · rw [gpuGet_fresh_absent sh st h hm]
    · rw [gpuGet_fresh_present sh st h hm]
  have hne : (gpuGet sh st).value ≠ "" := by
    rcases hval with hv | hv | hv <;> rw [hv] <;> decide
  have hread : ∀ sh2 : Shell, gpuGet sh2 (gpuGet sh st).st =
      { value := (gpuGet sh st).value, st := (gpuGet sh st).st, ran := [] } := by
    intro sh2
    exact gpuGet_cached sh2 _ _ hcache hne
  refine ⟨hval, hcache, hread, ?_, ?_, ?_⟩
  · unfold monitorOp
    split <;> simp [hcache]
  · unfold unmonitorOp
    split <;> simp_all
  · intro sh2
    simp [handle_listener, hread sh2]

/-- C2 witness: the value computed under `shFull` (namely `nvidia`) is
returned unchanged by a second read performed under the entirely different
shell `shNone`. -/
theorem C2_gpu_memoized_witness :
    gpuGet shNone (gpuGet shFull (mkSwitch shFull)).st =
      { value := (gpuGet shFull (mkSwitch shFull)).value,
        st := (gpuGet shFull (mkSwitch shFull)).st, ran := [] } :=
  (C2_gpu_memoized shFull (mkSwitch shFull) rfl).2.2.1 shNone

/-! ### C3 -/

/-- C3: `switch(gpu)` is a silent no-op - the switch command is never
handed to the asynchronous runner and the caller-supplied callback is
never invoked - whenever the sudo helper is absent, or the select helper
is absent, or the current selection already equals the target.  The
checks happen in that order: when one of the two helper checks fails the
`query` precondition is never evaluated, so not even `<select> query` is
run. -/
theorem C3_switch_noop (sh : Shell) (st : SwitchState) (gpu : String) (hasCb : Bool)
    (h : st.commands.sudoCmd = "" ∨ st.commands.select = "" ∨ queryGet sh st = gpu) :
    (switchOp sh st gpu hasCb).spawned = [] ∧
    (switchOp sh st gpu hasCb).calls = [] ∧
    ((st.commands.sudoCmd = "" ∨ st.commands.select = "") →
      (switchOp sh st gpu hasCb).ranSync = []) := by
  by_cases h1 : st.commands.sudoCmd = ""
  · simp [switchOp, command_sudo, JSVal.truthy, h1]
  · by_cases h2 : st.commands.select = ""
    · simp [switchOp, command_sudo, command_select, JSVal.truthy, h1, h2]
    · have h3 : queryGet sh st = gpu := by tauto
      simp [switchOp, command_sudo, command_select, JSVal.truthy, JSVal.toStr, h1, h2, h3]

/-- C3 witness: under `shFull` the selection already is `nvidia`, so
switching to `nvidia` spawns nothing and calls nothing. -/
theorem C3_switch_noop_witness :
    (switchOp shFull (mkSwitch shFull) "nvidia" true).spawned = [] ∧
    (switchOp shFull (mkSwitch shFull) "nvidia" true).calls = [] := by
  have h := C3_switch_noop shFull (mkSwitch shFull) "nvidia" true (Or.inr (Or.inr (by decide)))
  exact ⟨h.1, h.2.1⟩

/-! ### C4 -/

/-- C4: when `switch(gpu)` does launch the switch command and the
subprocess completes, a supplied callback is invoked with
`{gpu, result: true}` on exit status zero and `{gpu, result: false}` on a
non-zero exit status; without a supplied callback nothing is invoked. -/
theorem C4_switch_callback (sh : Shell) (st : SwitchState) (gpu : String)
    (h1 : st.commands.sudoCmd ≠ "") (h2 : st.commands.select ≠ "")
    (h3 : queryGet sh st ≠ gpu) (status : Int) (out errText : String)
    (hrun : sh (st.commands.sudoCmd ++ " " ++ st.commands.select ++ " " ++ gpu) =
      .ok status out errText) :
    (status = 0 → (switchOp sh st gpu true).calls = [{ gpu := gpu, result := true }]) ∧
    (status ≠ 0 → (switchOp sh st gpu true).calls = [{ gpu := gpu, result := false }]) ∧
    (switchOp sh st gpu false).calls = [] := by
  refine ⟨?_, ?_, ?_⟩
  · intro hs
    simp [switchOp, command_sudo, command_select, JSVal.truthy, JSVal.toStr, h1, h2, h3,
      shell_exec_async, hrun, hs]
  · intro hs
    simp [switchOp, command_sudo, command_select, JSVal.truthy, JSVal.toStr, h1, h2, h3,
      shell_exec_async, hrun, hs]
  · simp [switchOp, command_sudo, command_select, JSVal.truthy, JSVal.toStr, h1, h2, h3]

/-- C4 witness: under `shFull`, switching to `intel` (helper exits 0)
reports `{intel, true}` and switching to `amd` (helper exits 3) reports
`{amd, false}`. -/
theorem C4_switch_callback_witness :
    (switchOp shFull (mkSwitch shFull) "intel" true).calls =
      [{ gpu := "intel", result := true }] ∧
    (switchOp shFull (mkSwitch shFull) "amd" true).calls =
      [{ gpu := "amd", result := false }] := by
  constructor
  · exact (C4_switch_callback shFull (mkSwitch shFull) "intel" (by decide) (by decide)
      (by decide) 0 "" "" (by decide)).1 rfl
  · exact (C4_switch_callback shFull (mkSwitch shFull) "amd" (by decide) (by decide)
      (by decide) 3 "" "switch failed\n" (by decide)).2.1 (by decide)

/-! ### C5 -/

/-- C5 counterexample: when no candidate binary resolves, the value the
constructor stores for the select role (observable through
`Switch.command`) is the empty string, not `null`: `_which` returns
`stdout.trim() || stderr.trim()`, and the or of two empty strings is `""`.
The claim as stated (the stored command is `null`) is therefore false. -/
theorem C5_counterexample :
    command (mkCommands shNone) "select" = JSVal.str "" ∧
    JSVal.str "" ≠ JSVal.null := ⟨rfl, by decide⟩

/-- C5 amended: for every helper role all of whose candidate binaries
produce a blank `which` lookup (no matching executable, nothing printed on
either stream), the resolved command stored in the helper table is the
empty string - a falsy absence marker, not `null` - and the dependent
operations `switch` and `settings` are no-ops that hand nothing to a
process runner and invoke no callback. -/
theorem C5_missing_helpers (sh : Shell)
    (h : ∀ c ∈ (["pkexec", "gksudo", "prime-select", "nvidia-smi", "nvidia-settings"] :
        List String),
      jsTrim (shell_exec sh ("which " ++ c)).stdout = "" ∧
      jsTrim (shell_exec sh ("which " ++ c)).stderr = "") :
    mkCommands sh = { sudoCmd := "", select := "", management := "", settings := "" } ∧
    (∀ gpu hasCb, switchOp sh (mkSwitch sh) gpu hasCb =
      { ranSync := [], spawned := [], calls := [] }) ∧
    settingsOp sh (mkSwitch sh) = { spawned := [], calls := [] } := by
  have hw : ∀ c ∈ (["pkexec", "gksudo", "prime-select", "nvidia-smi", "nvidia-settings"] :
      List String), which sh c = "" := by
    intro c hc
    have := h c hc
    simp [which, jsOr, this.1, this.2]
  have hmk : mkCommands sh = { sudoCmd := "", select := "", management := "", settings := "" } := by
    simp [mkCommands, jsOr, hw "pkexec" (by simp), hw "gksudo" (by simp),
      hw "prime-select" (by simp), hw "nvidia-smi" (by simp), hw "nvidia-settings" (by simp)]
  refine ⟨hmk, ?_, ?_⟩
  · intro gpu hasCb
    simp [switchOp, mkSwitch, hmk, command_sudo, JSVal.truthy]
  · simp [settingsOp, mkSwitch, hmk, command_settings, JSVal.truthy]

/-- C5 witness: under `shNone` (every `which` exits 1 printing nothing)
switching does nothing. -/
theorem C5_missing_helpers_witness :
    switchOp shNone (mkSwitch shNone) "nvidia" true =
      { ranSync := [], spawned := [], calls := [] } :=
  (C5_missing_helpers shNone (by intro c hc; exact ⟨rfl, rfl⟩)).2.1 "nvidia" true

/-! ### C6 -/

/-- C6 counterexample: prime the cache under `shIntel` (`M -L` exits 1,
so the cache holds `intel`), then deliver a change event while the shell
behaves like `shFull` (`M -L` now exits 0, so re-running the heuristic
would yield `nvidia`).  The handler runs no command at all and emits the
stale memoized `intel`, refuting the claim that the heuristic is re-run
rather than the memoized value returned. -/
theorem C6_counterexample :
    (handle_listener shFull (gpuGet shIntel (mkSwitch shIntel)).st).ran = [] ∧
    (handle_listener shFull (gpuGet shIntel (mkSwitch shIntel)).st).emitted =
      [("gpu-change", "intel")] ∧
    (if (shell_exec shFull ((mkCommands shIntel).management ++ " -L")).status ≠ 0
     then "intel" else "nvidia") = "nvidia" := by
  refine ⟨rfl, rfl, by decide⟩

/-- C6 amended: while the monitor is watching, a change event makes the
handler read the `gpu` getter - which returns the memoized value whenever
the cache is populated, running the heuristic only on a first read - and
emit a `gpu-change` notification carrying exactly that value. -/
theorem C6_handler (sh : Shell) (st : SwitchState) (_watch : st.listener.isSome = true) :
    (handle_listener sh st).emitted = [("gpu-change", (gpuGet sh st).value)] ∧
    (handle_listener sh st).st = (gpuGet sh st).st ∧
    (∀ v, st.gpuCache = some v → v ≠ "" →
      (handle_listener sh st).emitted = [("gpu-change", v)] ∧
      (handle_listener sh st).ran = []) := by
  refine ⟨rfl, rfl, ?_⟩
  intro v hv hne
  rw [handle_listener, gpuGet_cached sh st v hv hne]
  exact ⟨rfl, rfl⟩

/-- C6 witness: with the cache primed to `intel` and the monitor started,
the handler emits `gpu-change` with `intel`. -/
theorem C6_handler_witness :
    (handle_listener shFull (monitorOp (gpuGet shIntel (mkSwitch shIntel)).st)).emitted =
      [("gpu-change", "intel")] := by
  have h := (C6_handler shFull (monitorOp (gpuGet shIntel (mkSwitch shIntel)).st) rfl).2.2
    "intel" rfl (by decide)
  exact h.1

/-! ### C7 -/

/-- C7: neither runner raises.  When spawning a command fails, the
synchronous runner returns `{status: -1, stdin: command, stdout: "",
stderr: <error text>}` and the asynchronous runner invokes a supplied
callback exactly once, immediately, with exactly that result (both
runners are total functions of the shell oracle, so no exception ever
reaches a caller). -/
theorem C7_runner_failures (sh : Shell) (cmd msg : String) (h : sh cmd = .err msg) :
    shell_exec sh cmd = { status := -1, stdin := cmd, stdout := "", stderr := msg } ∧
    shell_exec_async sh cmd true =
      { spawned := [],
        calls := [(.immediate, { status := -1, stdin := cmd, stdout := "", stderr := msg })] } := by
  constructor
  · simp [shell_exec, h]
  · simp [shell_exec_async, h]

/-- C7 witness: on `shErr` every spawn throws `boom` and both runners
capture it with status `-1`. -/
theorem C7_runner_failures_witness :
    shell_exec shErr "prime-select query" =
      { status := -1, stdin := "prime-select query", stdout := "", stderr := "boom" } :=
  (C7_runner_failures shErr "prime-select query" "boom" rfl).1

/-! ### C8 -/

/-- C8: the `query` getter returns `unknown` when the select helper did
not resolve; otherwise it runs `<select> query` synchronously and returns
the trimmed stdout, falling back to the trimmed stderr, falling back to
`unknown`.  It is never memoized: its value only depends on the immutable
command table and the live shell, not on any mutable instance field. -/
theorem C8_query_getter (sh : Shell) (st : SwitchState) :
    (st.commands.select = "" → queryGet sh st = "unknown") ∧
    (st.commands.select ≠ "" →
      (jsTrim (shell_exec sh (st.commands.select ++ " query")).stdout ≠ "" →
        queryGet sh st = jsTrim (shell_exec sh (st.commands.select ++ " query")).stdout) ∧
      (jsTrim (shell_exec sh (st.commands.select ++ " query")).stdout = "" →
        jsTrim (shell_exec sh (st.commands.select ++ " query")).stderr ≠ "" →
        queryGet sh st = jsTrim (shell_exec sh (st.commands.select ++ " query")).stderr) ∧
      (jsTrim (shell_exec sh (st.commands.select ++ " query")).stdout = "" →
        jsTrim (shell_exec sh (st.commands.select ++ " query")).stderr = "" →
        queryGet sh st = "unknown")) ∧
    (∀ st2 : SwitchState, st2.commands = st.commands → queryGet sh st2 = queryGet sh st) := by
  refine ⟨?_, ?_, ?_⟩
  · intro hs
    simp [queryGet, command_select, JSVal.truthy, hs]
  · intro hs
    refine ⟨?_, ?_, ?_⟩
    · intro h1
      simp [queryGet, command_select, JSVal.truthy, JSVal.toStr, jsOr, hs, h1]
    · intro h1 h2
      simp [queryGet, command_select, JSVal.truthy, JSVal.toStr, jsOr, hs, h1, h2]
    · intro h1 h2
      simp [queryGet, command_select, JSVal.truthy, JSVal.toStr, jsOr, hs, h1, h2]
  · intro st2 hc
    simp [queryGet, command_select, hc]

/-- C8 witness: under `shFull`, `S query` prints `nvidia` followed by a
newline and the getter returns the trimmed `nvidia`. -/
theorem C8_query_getter_witness : queryGet shFull (mkSwitch shFull) = "nvidia" := by
  have h := ((C8_query_getter shFull (mkSwitch shFull)).2.1 (by decide)).1 (by decide)
  rw [h]
  rfl

/-! ### C9 -/

/-- C9: starting from an unwatched instance, calling `monitor()` twice
leaves exactly one active subscription (the second call is a no-op on the
whole state), `unmonitor()` while unwatched changes nothing, and
`unmonitor()` after `monitor()` cancels the subscription and returns the
instance to the unwatched state. -/
theorem C9_monitor_lifecycle (st : SwitchState)
    (h1 : st.listener = none) (h2 : st.active = []) :
    monitorOp (monitorOp st) = monitorOp st ∧
    (monitorOp st).active.length = 1 ∧
    unmonitorOp st = st ∧
    (unmonitorOp (monitorOp st)).listener = none ∧
    (unmonitorOp (monitorOp st)).active = [] := by
  have hm : monitorOp st =
      { st with listener := some st.nextId, active := st.active ++ [st.nextId],
                nextId := st.nextId + 1 } := by
    simp [monitorOp, h1]
  refine ⟨?_, ?_, ?_, ?_, ?_⟩
  · rw [hm]
    simp [monitorOp]
  · rw [hm]
    simp [h2]
  · simp [unmonitorOp, h1]
  · rw [hm]
    simp [unmonitorOp]
  · rw [hm]
    simp [unmonitorOp, h2]

/-- C9 witness: the lifecycle on a freshly constructed instance. -/
theorem C9_monitor_lifecycle_witness :
    monitorOp (monitorOp (mkSwitch shNone)) = monitorOp (mkSwitch shNone) ∧
    (unmonitorOp (monitorOp (mkSwitch shNone))).active = [] :=
  ⟨(C9_monitor_lifecycle (mkSwitch shNone) rfl rfl).1,
   (C9_monitor_lifecycle (mkSwitch shNone) rfl rfl).2.2.2.2⟩

/-! ### C10 -/

/-- C10 counterexample: `toString` is outside the four known roles, yet
`command` does not return `null` for it: the JavaScript `in` operator
consults the prototype chain, `toString in this._commands` is true, and
the indexing returns the function inherited from `Object.prototype`. -/
theorem C10_counterexample :
    command (mkCommands shNone) "toString" = JSVal.inherited "toString" ∧
    JSVal.inherited "toString" ≠ JSVal.null := ⟨rfl, by decide⟩

/-- C10 amended: for every role name outside the four known roles that is
not a property name inherited from `Object.prototype`, `command(role)`
returns `null` (never raising and never returning `undefined`); for
inherited names such as `toString` it instead returns the inherited
non-null member. -/
theorem C10_command_unknown_role (c : Commands) (role : String)
    (h1 : role ∉ (["sudo", "select", "management", "settings"] : List String))
    (h2 : role ∉ objectPrototypeProps) :
    command c role = JSVal.null := by
  simp only [List.mem_cons, List.mem_singleton, not_or] at h1
  obtain ⟨n1, n2, n3, n4, -⟩ := h1
  simp [command, n1, n2, n3, n4, h2]

/-- C10 witness: a plain unknown role name yields `null`. -/
theorem C10_command_unknown_role_witness :
    command (mkCommands shNone) "bogus" = JSVal.null :=
  C10_command_unknown_role (mkCommands shNone) "bogus" (by decide) (by decide)

end PrimeIndicator
